import Mathlib

/-!
Verification development for the LaunchLens statistical inference core.

The Python sources are shallowly embedded as Lean definitions:
  - machine floats become exact rationals (`ℚ`); the opaque numeric kernels the
    code calls (`math.sqrt`, `scipy.stats.norm.cdf`, `scipy.stats.norm.ppf(0.975)`,
    `scipy.stats.t.ppf(0.975, df)`, `scipy.stats.ttest_ind(b, a, equal_var=False)`)
    are abstracted into an environment record `NumEnv` whose fields stand for those
    library routines;
  - `numpy` arrays become `List ℚ`; `np.mean`, `np.var(·, ddof=1)` and
    `np.cov(·,·,ddof=1)[0,1]` become `mean`, `varSample`, `covSample`.  For lists of
    length ≤ 1 the Python variance is NaN; every theorem below only inspects code
    paths on which that junk value is discarded by the guards the source itself has,
    and the Lean model returns `0` in those spots (division by zero is `0` in `ℚ`);
  - a raised Python exception becomes the `Except.error` branch carrying a
    `PyError` record of the Python exception class name and its message;
  - the chi-square survival function used by `scipy.stats.chisquare` (df = 1) is
    given its mathematical definition over `ℝ`: `P(χ²₁ > x) = 2·P(Z > √x)` with `Z`
    standard normal.
-/

open scoped BigOperators

/-- Opaque numeric library routines used by the Python sources (`math.sqrt` and
the `scipy.stats` calls), abstracted as an environment.  `ttest_p b a` stands for
the p-value of `scipy.stats.ttest_ind(b, a, equal_var=False)`. -/
structure NumEnv where
  sqrt : ℚ → ℚ
  norm_cdf : ℚ → ℚ
  z975 : ℚ
  t_ppf : ℚ → ℚ
  ttest_p : List ℚ → List ℚ → ℚ

/-- Model of `np.mean` on a nonempty list (`sum/length`; `0` junk on `[]` where
Python yields NaN — never inspected by the theorems below on that case). -/
def mean (xs : List ℚ) : ℚ := xs.sum / xs.length

/-- Model of `np.var(xs, ddof=1)`: unbiased sample variance with divisor `n - 1`
(`0` junk for `n ≤ 1`, where Python yields NaN behind the sources' own guards). -/
def varSample (xs : List ℚ) : ℚ :=
  ((xs.map (fun v => (v - mean xs) ^ 2)).sum) / ((xs.length : ℚ) - 1)

/-- Model of `np.cov(y, x, ddof=1)[0, 1]`: sample covariance with divisor `n - 1`. -/
def covSample (y x : List ℚ) : ℚ :=
  ((List.zipWith (fun a b => (a - mean y) * (b - mean x)) y x).sum) / ((y.length : ℚ) - 1)

/-- Return record of `_two_proportion_ztest` (ab_readout.py lines 42-67); the
Python function returns the tuple `(p1, p2, diff, (ci_low, ci_high), p_value)`. -/
structure ZtestResult where
  p1 : ℚ
  p2 : ℚ
  diff : ℚ
  ci_low : ℚ
  ci_high : ℚ
  p_value : ℚ
deriving DecidableEq

/-- Argument of the unpooled-SE square root in `_two_proportion_ztest`
(ab_readout.py line 54): `p1*(1-p1)/n1 + p2*(1-p2)/n2`. -/
def se_ci_arg (x1 n1 x2 n2 : ℕ) : ℚ :=
  ((x1 : ℚ) / n1) * (1 - (x1 : ℚ) / n1) / n1 + ((x2 : ℚ) / n2) * (1 - (x2 : ℚ) / n2) / n2

/-- Argument of the pooled-SE square root in `_two_proportion_ztest`
(ab_readout.py line 60): `p_pool*(1-p_pool)*(1/n1 + 1/n2)` with
`p_pool = (x1+x2)/(n1+n2)`. -/
def se_pooled_arg (x1 n1 x2 n2 : ℕ) : ℚ :=
  (((x1 : ℚ) + x2) / ((n1 : ℚ) + n2)) * (1 - ((x1 : ℚ) + x2) / ((n1 : ℚ) + n2)) *
    (1 / (n1 : ℚ) + 1 / (n2 : ℚ))

/-- Embedding of `_two_proportion_ztest(x1, n1, x2, n2)` (ab_readout.py lines 42-67). -/
def two_proportion_ztest (env : NumEnv) (x1 n1 x2 n2 : ℕ) : ZtestResult :=
  if n1 = 0 ∨ n2 = 0 then ⟨0, 0, 0, 0, 0, 1⟩
  else
    let p1 : ℚ := (x1 : ℚ) / n1
    let p2 : ℚ := (x2 : ℚ) / n2
    let diff := p2 - p1
    let se_ci := env.sqrt (se_ci_arg x1 n1 x2 n2)
    let ci_low := diff - env.z975 * se_ci
    let ci_high := diff + env.z975 * se_ci
    let se_pooled := env.sqrt (se_pooled_arg x1 n1 x2 n2)
    let p_value := if se_pooled = 0 then 1 else 2 * (1 - env.norm_cdf |diff / se_pooled|)
    ⟨p1, p2, diff, ci_low, ci_high, p_value⟩

/-- Return record shared by both Welch implementations.  `_two_sample_ttest`
returns `(diff, (ci_low, ci_high), p_value)`; `welch_ttest_ci` returns
`(diff, ci_low, ci_high, p_value)`. -/
structure TtestResult where
  diff : ℚ
  ci_low : ℚ
  ci_high : ℚ
  p_value : ℚ
deriving DecidableEq

/-- Embedding of `_two_sample_ttest(a, b)` (ab_readout.py lines 70-97). -/
def two_sample_ttest (env : NumEnv) (a b : List ℚ) : TtestResult :=
  if a.length < 2 ∨ b.length < 2 then ⟨0, 0, 0, 1⟩
  else
    let diff := mean b - mean a
    let p_value := env.ttest_p b a
    let va := varSample a
    let vb := varSample b
    let na : ℚ := a.length
    let nb : ℚ := b.length
    let se := env.sqrt (va / na + vb / nb)
    if se = 0 then ⟨diff, diff, diff, 1⟩
    else
      let df_num := (va / na + vb / nb) ^ 2
      let df_den := va ^ 2 / (na ^ 2 * (na - 1)) + vb ^ 2 / (nb ^ 2 * (nb - 1))
      let df := if df_den > 0 then df_num / df_den else na + nb - 2
      let tcrit := env.t_ppf df
      ⟨diff, diff - tcrit * se, diff + tcrit * se, p_value⟩

/-- Embedding of `welch_ttest_ci(a, b)` (cuped.py lines 29-53). -/
def welch_ttest_ci (env : NumEnv) (a b : List ℚ) : TtestResult :=
  let diff := mean b - mean a
  let va := varSample a
  let vb := varSample b
  let na : ℚ := a.length
  let nb : ℚ := b.length
  let se := env.sqrt (va / na + vb / nb)
  if se = 0 ∨ a.length < 2 ∨ b.length < 2 then ⟨diff, diff, diff, 1⟩
  else
    let df_num := (va / na + vb / nb) ^ 2
    let df_den := va ^ 2 / (na ^ 2 * (na - 1)) + vb ^ 2 / (nb ^ 2 * (nb - 1))
    let df := if df_den > 0 then df_num / df_den else na + nb - 2
    let tcrit := env.t_ppf df
    ⟨diff, diff - tcrit * se, diff + tcrit * se, env.ttest_p b a⟩

/-- CUPED regression coefficient (cuped.py lines 98-100):
`theta = cov(y,x)/var(x) if var(x) > 0 else 0.0`. -/
def cuped_theta (y x : List ℚ) : ℚ :=
  if varSample x > 0 then covSample y x / varSample x else 0

/-- CUPED adjusted outcome (cuped.py line 102): `y - theta * (x - mean(x))`,
elementwise over the paired sequences. -/
def cuped_adjust (y x : List ℚ) : List ℚ :=
  List.zipWith (fun yi xi => yi - cuped_theta y x * (xi - mean x)) y x

/-- CUPED variance reduction fraction (cuped.py lines 121-123):
`1 - var(y_cuped)/var(y)` when `var(y) > 0`, else `0`. -/
def variance_reduction (y x : List ℚ) : ℚ :=
  if varSample y > 0 then 1 - varSample (cuped_adjust y x) / varSample y else 0

/-- Chi-square goodness-of-fit statistic computed by `scipy.stats.chisquare` on
the two observed counts against expected counts `total*(1-share)` and
`total*share`, as assembled in `srm_test` (srm_guardrails.py lines 34-42):
`sum((obs - exp)^2 / exp)`. -/
def srm_chi2 (n_control n_treatment : ℕ) (share : ℚ) : ℚ :=
  let total : ℚ := (n_control : ℚ) + n_treatment
  let exp_t := total * share
  let exp_c := total * (1 - share)
  ((n_control : ℚ) - exp_c) ^ 2 / exp_c + ((n_treatment : ℚ) - exp_t) ^ 2 / exp_t

/-- Upper tail of the standard normal distribution,
`P(Z > a) = ∫_a^∞ exp(-t²/2)/√(2π) dt`. -/
noncomputable def normal_tail (a : ℝ) : ℝ :=
  ∫ t in Set.Ioi a, Real.exp (-(t ^ 2) / 2) / Real.sqrt (2 * Real.pi)

/-- Survival function of the chi-square distribution with one degree of freedom,
which is what `scipy.stats.chisquare` applies to the statistic for two
categories: `P(χ²₁ > x) = P(Z² > x) = 2·P(Z > √x)`. -/
noncomputable def chisq1_sf (x : ℝ) : ℝ := 2 * normal_tail (Real.sqrt x)

/-- Result record of `srm_test` (srm_guardrails.py lines 24-31). -/
structure SRMResult where
  level : String
  n_control : ℕ
  n_treatment : ℕ
  expected_share_treatment : ℚ
  chi2 : ℚ
  p_value : ℝ

/-- Embedding of `srm_test(n_control, n_treatment, expected_share_treatment)`
(srm_guardrails.py lines 34-50): builds expected counts `total*(1-share)`,
`total*share`, runs the two-category chi-square goodness-of-fit test of
`[n_control, n_treatment]` against them, and packages the statistic and its
1-degree-of-freedom p-value. -/
noncomputable def srm_test (n_control n_treatment : ℕ) (share : ℚ) : SRMResult :=
  ⟨"count", n_control, n_treatment, share,
    srm_chi2 n_control n_treatment share,
    chisq1_sf ((srm_chi2 n_control n_treatment share : ℚ) : ℝ)⟩

/-- One `fact_sessions` row as selected by the `run_readout` query
(ab_readout.py lines 104-118) together with the two columns that query filters
on (`experiment_id`, `is_experiment_period`). -/
structure SessionRow where
  experiment_id : String
  is_experiment_period : Bool
  variant : String
  has_impression : Bool
  has_click : Bool
  has_add_to_cart : Bool
  has_purchase : Bool
  revenue : ℚ
deriving DecidableEq

/-- The `WHERE experiment_id = ? AND is_experiment_period = TRUE` filter of the
`run_readout` query (ab_readout.py lines 113-115). -/
def fetch_sessions (table : List SessionRow) (eid : String) : List SessionRow :=
  table.filter (fun r => r.experiment_id == eid && r.is_experiment_period)

/-- The `MetricResult` dataclass (ab_readout.py lines 30-39).  `rel_diff` is
`Option ℚ`, with `none` standing for the `np.nan` the source stores when the
control estimate is not positive. -/
structure MetricResult where
  metric : String
  control : ℚ
  treatment : ℚ
  abs_diff : ℚ
  rel_diff : Option ℚ
  ci_low : ℚ
  ci_high : ℚ
  p_value : ℚ
deriving DecidableEq

/-- Packaging of one proportion metric into a `MetricResult`, the pattern
repeated at ab_readout.py lines 137-146, 154-163, 169-178 and 182-191:
`rel_diff = diff/p1 if p1 > 0 else np.nan`. -/
def mkPropMetric (name : String) (z : ZtestResult) : MetricResult :=
  ⟨name, z.p1, z.p2, z.diff, if z.p1 > 0 then some (z.diff / z.p1) else none,
    z.ci_low, z.ci_high, z.p_value⟩

/-- The five `MetricResult` records built by `run_readout` (ab_readout.py lines
124-206) in insertion order: purchase_rate_per_session, ctr, atc_rate,
purchase_rate_given_atc, revenue_per_session.  Counts are the sums of the
0/1 indicator columns within each variant group. -/
def run_readout_metrics (env : NumEnv) (df : List SessionRow) : List MetricResult :=
  let c := df.filter (fun r => r.variant == "control")
  let t := df.filter (fun r => r.variant == "treatment")
  let n_c := c.length
  let n_t := t.length
  let x_c := c.countP (fun r => r.has_purchase)
  let x_t := t.countP (fun r => r.has_purchase)
  let imp_c := c.countP (fun r => r.has_impression)
  let imp_t := t.countP (fun r => r.has_impression)
  let clk_c := c.countP (fun r => r.has_click)
  let clk_t := t.countP (fun r => r.has_click)
  let atc_c := c.countP (fun r => r.has_add_to_cart)
  let atc_t := t.countP (fun r => r.has_add_to_cart)
  let rev_c := c.map (fun r => r.revenue)
  let rev_t := t.map (fun r => r.revenue)
  let tt := two_sample_ttest env rev_c rev_t
  [ mkPropMetric "purchase_rate_per_session" (two_proportion_ztest env x_c n_c x_t n_t),
    mkPropMetric "ctr" (two_proportion_ztest env clk_c imp_c clk_t imp_t),
    mkPropMetric "atc_rate" (two_proportion_ztest env atc_c clk_c atc_t clk_t),
    mkPropMetric "purchase_rate_given_atc" (two_proportion_ztest env x_c atc_c x_t atc_t),
    ⟨"revenue_per_session", mean rev_c, mean rev_t, tt.diff,
      if mean rev_c > 0 then some (tt.diff / mean rev_c) else none,
      tt.ci_low, tt.ci_high, tt.p_value⟩ ]

/-- Digits of `n` in base 10, most significant first, via fuel-bounded structural
recursion so that concrete instances reduce in the kernel. -/
def natDigitsAux : ℕ → ℕ → List Char
  | 0, _ => []
  | fuel + 1, n => if n = 0 then [] else natDigitsAux fuel (n / 10) ++ [Char.ofNat (48 + n % 10)]

/-- Decimal rendering of a natural number. -/
def natToStr (n : ℕ) : String := if n = 0 then "0" else String.mk (natDigitsAux (n + 1) n)

/-- Left-pad a digit string with zeros to `d` characters. -/
def pad0 (d : ℕ) (s : List Char) : List Char := List.replicate (d - s.length) '0' ++ s

/-- Model of Python fixed-point formatting `f"x:.df"` on the exact rational:
round `q·10^d` to the nearest integer and print with `d` decimal places.
(Python rounds the underlying binary float half-to-even; every concrete value
formatted in this file is far from a tie, where the two agree.) -/
def fmtFixed (d : ℕ) (q : ℚ) : String :=
  let n : ℤ := round (q * (10 : ℚ) ^ d)
  let m := n.natAbs
  let ip := natToStr (m / 10 ^ d)
  let fp := String.mk (pad0 d (natToStr (m % 10 ^ d)).data)
  (if n < 0 then "-" else "") ++ ip ++ "." ++ fp

/-- The `pct` formatter of `run_readout` (ab_readout.py line 224): `f"x*100:.3f"`
with a percent sign appended. -/
def fmt_pct (q : ℚ) : String := fmtFixed 3 (q * 100) ++ "%"

/-- The `rel` formatter of `run_readout` (ab_readout.py line 225). -/
def fmt_rel (q : ℚ) : String := fmtFixed 2 (q * 100) ++ "%"

/-- The `num` formatter of `run_readout` (ab_readout.py line 226). -/
def fmt_num (q : ℚ) : String := fmtFixed 4 q

/-- One row of the formatted output table `run_readout` returns (ab_readout.py
lines 219-251): every column except the metric name is a display string. -/
structure DisplayRow where
  metric : String
  control : String
  treatment : String
  abs_diff : String
  rel_diff : String
  ci_low : String
  ci_high : String
  p_value : String
deriving DecidableEq

/-- Formatting of one `MetricResult` into a display row (ab_readout.py lines
228-247): percent strings for the four proportion metrics, plain numbers for
`revenue_per_session`, `"NA"` for a null relative difference. -/
def displayRow (r : MetricResult) : DisplayRow :=
  if ["purchase_rate_per_session", "ctr", "atc_rate", "purchase_rate_given_atc"].contains r.metric then
    ⟨r.metric, fmt_pct r.control, fmt_pct r.treatment, fmt_pct r.abs_diff,
      match r.rel_diff with
      | some v => fmt_rel v
      | none => "NA",
      fmt_pct r.ci_low, fmt_pct r.ci_high, fmt_num r.p_value⟩
  else
    ⟨r.metric, fmt_num r.control, fmt_num r.treatment, fmt_num r.abs_diff,
      match r.rel_diff with
      | some v => fmt_rel v
      | none => "NA",
      fmt_num r.ci_low, fmt_num r.ci_high, fmt_num r.p_value⟩

/-- Lexicographic strict order on character lists (the ascending string order
`sort_values` uses), written so concrete comparisons reduce in the kernel. -/
def strLtB : List Char → List Char → Bool
  | [], [] => false
  | [], _ :: _ => true
  | _ :: _, [] => false
  | a :: as, b :: bs =>
      if a.toNat < b.toNat then true
      else if b.toNat < a.toNat then false
      else strLtB as bs

/-- Insertion step of the `sort_values("metric")` at ab_readout.py line 251. -/
def insertRow (r : DisplayRow) : List DisplayRow → List DisplayRow
  | [] => [r]
  | h :: t => if strLtB r.metric.data h.metric.data then r :: h :: t else h :: insertRow r t

/-- Ascending sort of the display table by metric name (ab_readout.py line 251). -/
def sortByMetric (rs : List DisplayRow) : List DisplayRow := rs.foldr insertRow []

/-- A raised Python exception: its class name and message. -/
structure PyError where
  cls : String
  msg : String
deriving DecidableEq

/-- Embedding of `run_readout(db_path, experiment_id)` (ab_readout.py lines
100-251), with the DuckDB table passed explicitly: filter the session rows,
raise `ValueError` when none remain (line 122), otherwise build the five
metric records and return the formatted, metric-sorted display table. -/
def run_readout (env : NumEnv) (table : List SessionRow) (eid : String) :
    Except PyError (List DisplayRow) :=
  let df := fetch_sessions table eid
  if df.isEmpty then
    Except.error ⟨"ValueError", "No experiment-period sessions found. Check experiment_id or data."⟩
  else
    Except.ok (sortByMetric ((run_readout_metrics env df).map displayRow))

/-- Split a character list at the first decimal point. -/
def splitAtDot : List Char → List Char × List Char
  | [] => ([], [])
  | c :: cs => if c = '.' then ([], cs) else
      let p := splitAtDot cs
      (c :: p.1, p.2)

/-- Value of a base-10 digit string. -/
def digitsVal (cs : List Char) : ℕ := cs.foldl (fun acc c => acc * 10 + (c.toNat - 48)) 0

/-- Value of an unsigned decimal string. -/
def parseDecChars (cs : List Char) : ℚ :=
  let p := splitAtDot cs
  (digitsVal p.1 : ℚ) + (digitsVal p.2 : ℚ) / (10 : ℚ) ^ p.2.length

/-- Model of Python `float(s)` on the plain decimal strings this pipeline
produces. -/
def parseDec (s : String) : ℚ :=
  match s.data with
  | '-' :: rest => -(parseDecChars rest)
  | cs => parseDecChars cs

/-- Model of `float(str(x).replace("%", "")) / 100.0` (generate_report.py line
137, likewise dashboards/app.py line 141): strip percent signs, parse, divide
by 100. -/
def parse_pct_back (s : String) : ℚ :=
  parseDec (String.mk (s.data.filter (fun c => c ≠ '%'))) / 100

/-- The primary p-value the report consumes (generate_report.py line 136):
`float(primary["p_value"])`, parsed back from the formatted display string. -/
def report_pval_primary (primary : DisplayRow) : ℚ := parseDec primary.p_value

/-- The primary absolute difference the report consumes (generate_report.py
line 137), parsed back from the formatted percent string. -/
def report_abs_diff_num (primary : DisplayRow) : ℚ := parse_pct_back primary.abs_diff

/-- The ship/hold rule (generate_report.py line 138):
`ship = (pval_primary < 0.05) and (abs_diff_num > 0)`. -/
def report_ship (primary : DisplayRow) : Bool :=
  decide (report_pval_primary primary < 1 / 20) && decide (report_abs_diff_num primary > 0)

/-- The report's decision pipeline (generate_report.py lines 132-138): call
`run_readout` (errors propagate — there is no handler), select the
`purchase_rate_per_session` row of the returned display table, and apply the
ship/hold rule to its formatted strings. -/
def generate_report_decision (env : NumEnv) (table : List SessionRow) (eid : String) :
    Except PyError Bool :=
  (run_readout env table eid).bind (fun readout =>
    match readout.find? (fun r => r.metric == "purchase_rate_per_session") with
    | some primary => Except.ok (report_ship primary)
    | none => Except.error ⟨"IndexError", "single positional indexer is out-of-bounds"⟩)

/-- Concrete instantiation of the abstract numeric routines, used to evaluate
the model at specific inputs in the closed theorems below.  The facts proved at
such inputs do not depend on the numeric behavior of the true routines except
where a hypothesis states the property of them that is used. -/
def idEnv : NumEnv := ⟨id, id, 2, id, fun _ _ => 1 / 2⟩

theorem varSample_nonneg (xs : List ℚ) : 0 ≤ varSample xs := by
  unfold varSample
  match xs with
  | [] => simp
  | [a] => simp
  | a :: b :: t =>
      apply div_nonneg
      · apply List.sum_nonneg
        intro z hz
        simp only [List.mem_map] at hz
        obtain ⟨w, _, rfl⟩ := hz
        positivity
      · have : (2 : ℚ) ≤ ((a :: b :: t).length : ℚ) := by
          simp only [List.length_cons]
          push_cast
          linarith [Nat.cast_nonneg (α := ℚ) t.length]
        linarith

theorem zipWith_left_eq (y : List ℚ) :
    ∀ x : List ℚ, y.length ≤ x.length → List.zipWith (fun yi (_ : ℚ) => yi) y x = y := by
  induction y with
  | nil => intro x _; simp
  | cons a t ih =>
      intro x hx
      match x with
      | [] => simp at hx
      | b :: s =>
          simp only [List.zipWith_cons_cons, List.cons.injEq, true_and]
          exact ih s (by simpa using hx)

theorem cuped_adjust_of_theta_zero (y x : List ℚ) (hlen : y.length = x.length)
    (h : cuped_theta y x = 0) : cuped_adjust y x = y := by
  unfold cuped_adjust
  rw [h]
  simp only [zero_mul, sub_zero]
  exact zipWith_left_eq y x (le_of_eq hlen)

/-- Claim C3 fails as stated: at `a = [1]`, `b = [5]` (a single-observation
sample), cuped's `welch_ttest_ci` returns `diff = 4` with the point interval
`(4, 4)` — not `diff = 0, ci = (0, 0)` as the claim asserts for both call
sites. -/
theorem c3_counterexample :
    welch_ttest_ci idEnv [1] [5] = ⟨4, 4, 4, 1⟩ ∧
    (⟨4, 4, 4, 1⟩ : TtestResult) ≠ ⟨0, 0, 0, 1⟩ := by
  constructor
  · norm_num [welch_ttest_ci, mean, varSample, idEnv]
  · simp

/-- Claim C3 amended: when either sample has fewer than 2 observations,
ab_readout's `_two_sample_ttest` returns `diff = 0, ci = (0, 0), p_value = 1.0`,
while cuped's `welch_ttest_ci` (on nonempty samples, where the means are
defined) instead returns `diff = mean(b) - mean(a)` with the point interval
`(diff, diff)` and `p_value = 1.0`. -/
theorem c3_amended (env : NumEnv) (a b : List ℚ)
    (hdeg : a.length < 2 ∨ b.length < 2) :
    two_sample_ttest env a b = ⟨0, 0, 0, 1⟩ ∧
    (a ≠ [] → b ≠ [] →
      welch_ttest_ci env a b = ⟨mean b - mean a, mean b - mean a, mean b - mean a, 1⟩) := by
  constructor
  · unfold two_sample_ttest
    rw [if_pos hdeg]
  · intro _ _
    unfold welch_ttest_ci
    rw [if_pos (Or.inr hdeg)]

/-- Claim C3 witness: the amended statement evaluated at `a = [2]`,
`b = [7, 9]`. -/
theorem c3_witness :
    two_sample_ttest idEnv [2] [7, 9] = ⟨0, 0, 0, 1⟩ ∧
    welch_ttest_ci idEnv [2] [7, 9] = ⟨6, 6, 6, 1⟩ := by
  have h := c3_amended idEnv [2] [7, 9] (Or.inl (by norm_num))
  refine ⟨h.1, ?_⟩
  rw [h.2 (by simp) (by simp)]
  norm_num [mean]

/-- Claim C4: with `0 ≤ x1 ≤ n1`, `0 ≤ x2 ≤ n2`, the proportion comparator
returns all zeros with `p_value = 1` when `n1 = 0` or `n2 = 0`; otherwise it
returns `p1 = x1/n1`, `p2 = x2/n2`, `diff = p2 - p1`, the confidence interval
`diff ± z0.975·sqrt(p1(1-p1)/n1 + p2(1-p2)/n2)` from the unpooled standard
error, and a p-value from the pooled standard error
`sqrt(p_pool(1-p_pool)(1/n1+1/n2))` with `p_pool = (x1+x2)/(n1+n2)`:
`p_value = 1` when that standard error is zero (in particular whenever
`x1 = x2 = 0`), else `2(1 - Φ(|diff/se_pooled|))`.  The square root is the
abstract `env.sqrt`; the only property used of it is `sqrt 0 = 0`. -/
theorem c4_proportion_comparator (env : NumEnv) (x1 n1 x2 n2 : ℕ)
    (hx1 : x1 ≤ n1) (hx2 : x2 ≤ n2) (hs0 : env.sqrt 0 = 0) :
    (n1 = 0 ∨ n2 = 0 → two_proportion_ztest env x1 n1 x2 n2 = ⟨0, 0, 0, 0, 0, 1⟩) ∧
    (n1 ≠ 0 → n2 ≠ 0 →
      (two_proportion_ztest env x1 n1 x2 n2).p1 = (x1 : ℚ) / n1 ∧
      (two_proportion_ztest env x1 n1 x2 n2).p2 = (x2 : ℚ) / n2 ∧
      (two_proportion_ztest env x1 n1 x2 n2).diff = (x2 : ℚ) / n2 - (x1 : ℚ) / n1 ∧
      (two_proportion_ztest env x1 n1 x2 n2).ci_low =
        ((x2 : ℚ) / n2 - (x1 : ℚ) / n1) -
          env.z975 * env.sqrt
            (((x1 : ℚ) / n1) * (1 - (x1 : ℚ) / n1) / n1 +
              ((x2 : ℚ) / n2) * (1 - (x2 : ℚ) / n2) / n2) ∧
      (two_proportion_ztest env x1 n1 x2 n2).ci_high =
        ((x2 : ℚ) / n2 - (x1 : ℚ) / n1) +
          env.z975 * env.sqrt
            (((x1 : ℚ) / n1) * (1 - (x1 : ℚ) / n1) / n1 +
              ((x2 : ℚ) / n2) * (1 - (x2 : ℚ) / n2) / n2) ∧
      (env.sqrt
          ((((x1 : ℚ) + x2) / ((n1 : ℚ) + n2)) * (1 - ((x1 : ℚ) + x2) / ((n1 : ℚ) + n2)) *
            (1 / (n1 : ℚ) + 1 / (n2 : ℚ))) = 0 →
        (two_proportion_ztest env x1 n1 x2 n2).p_value = 1) ∧
      (env.sqrt
          ((((x1 : ℚ) + x2) / ((n1 : ℚ) + n2)) * (1 - ((x1 : ℚ) + x2) / ((n1 : ℚ) + n2)) *
            (1 / (n1 : ℚ) + 1 / (n2 : ℚ))) ≠ 0 →
        (two_proportion_ztest env x1 n1 x2 n2).p_value =
          2 * (1 - env.norm_cdf
            |((x2 : ℚ) / n2 - (x1 : ℚ) / n1) /
              env.sqrt
                ((((x1 : ℚ) + x2) / ((n1 : ℚ) + n2)) *
                  (1 - ((x1 : ℚ) + x2) / ((n1 : ℚ) + n2)) *
                  (1 / (n1 : ℚ) + 1 / (n2 : ℚ)))|)) ∧
      (x1 = 0 → x2 = 0 → (two_proportion_ztest env x1 n1 x2 n2).p_value = 1)) := by
  constructor
  · intro h
    unfold two_proportion_ztest
    rw [if_pos h]
  · intro h1 h2
    have hcond : ¬(n1 = 0 ∨ n2 = 0) := by tauto
    have harg : se_pooled_arg x1 n1 x2 n2 =
        (((x1 : ℚ) + x2) / ((n1 : ℚ) + n2)) * (1 - ((x1 : ℚ) + x2) / ((n1 : ℚ) + n2)) *
          (1 / (n1 : ℚ) + 1 / (n2 : ℚ)) := rfl
    simp only [two_proportion_ztest, if_neg hcond, se_ci_arg]
    refine ⟨trivial, trivial, trivial, trivial, trivial, ?_, ?_, ?_⟩
    · intro hse
      rw [if_pos (show env.sqrt (se_pooled_arg x1 n1 x2 n2) = 0 from hse)]
    · intro hse
      rw [if_neg (show ¬env.sqrt (se_pooled_arg x1 n1 x2 n2) = 0 from hse), harg]
    · intro hx10 hx20
      subst hx10
      subst hx20
      have hz : se_pooled_arg 0 n1 0 n2 = 0 := by simp [se_pooled_arg]
      rw [if_pos (show env.sqrt (se_pooled_arg 0 n1 0 n2) = 0 from by rw [hz, hs0])]

/-- Claim C4 witness: the theorem applied at `(x1, n1, x2, n2) = (1, 2, 1, 2)`
and at the degenerate `(0, 0, 1, 2)`, with the identity instantiation of the
numeric routines. -/
theorem c4_witness :
    two_proportion_ztest idEnv 0 0 1 2 = ⟨0, 0, 0, 0, 0, 1⟩ ∧
    (two_proportion_ztest idEnv 1 2 1 2).p1 = 1 / 2 := by
  constructor
  · exact (c4_proportion_comparator idEnv 0 0 1 2 (by norm_num) (by norm_num) rfl).1
      (Or.inl rfl)
  · have h := (c4_proportion_comparator idEnv 1 2 1 2 (by norm_num) (by norm_num) rfl).2
      (by norm_num) (by norm_num)
    rw [h.1]
    norm_num

/-- Claim C6: for samples with at least 2 observations each and positive
standard error, ab_readout's `_two_sample_ttest` and cuped's `welch_ttest_ci`
are one algorithm: they return identical diff, CI bounds and p-value, and both
compute the Welch-Satterthwaite degrees of freedom
`(va/na + vb/nb)² / (va²/(na²(na-1)) + vb²/(nb²(nb-1)))` with fallback
`na + nb - 2` when the denominator is not positive. -/
theorem c6_welch_one_algorithm (env : NumEnv) (a b : List ℚ)
    (ha : 2 ≤ a.length) (hb : 2 ≤ b.length)
    (hse : 0 < env.sqrt (varSample a / a.length + varSample b / b.length)) :
    two_sample_ttest env a b = welch_ttest_ci env a b ∧
    two_sample_ttest env a b =
      (let va := varSample a
       let vb := varSample b
       let na : ℚ := a.length
       let nb : ℚ := b.length
       let den := va ^ 2 / (na ^ 2 * (na - 1)) + vb ^ 2 / (nb ^ 2 * (nb - 1))
       let df := if den > 0 then (va / na + vb / nb) ^ 2 / den else na + nb - 2
       let se := env.sqrt (va / na + vb / nb)
       ⟨mean b - mean a, mean b - mean a - env.t_ppf df * se,
        mean b - mean a + env.t_ppf df * se, env.ttest_p b a⟩) := by
  have hlen : ¬(a.length < 2 ∨ b.length < 2) := by omega
  have hne : env.sqrt (varSample a / a.length + varSample b / b.length) ≠ 0 := ne_of_gt hse
  have hall : ¬(env.sqrt (varSample a / a.length + varSample b / b.length) = 0 ∨
      a.length < 2 ∨ b.length < 2) := by
    push_neg
    exact ⟨hne, by omega, by omega⟩
  constructor
  · simp only [two_sample_ttest, welch_ttest_ci, if_neg hlen, if_neg hne, if_neg hall]
  · simp only [two_sample_ttest, if_neg hlen, if_neg hne]

/-- Claim C6 witness: the equivalence evaluated at `a = [0, 2]`, `b = [1, 3]`
(sample variances 2, standard error argument 2 > 0 under the identity
instantiation of `sqrt`). -/
theorem c6_witness :
    two_sample_ttest idEnv [0, 2] [1, 3] = welch_ttest_ci idEnv [0, 2] [1, 3] := by
  exact (c6_welch_one_algorithm idEnv [0, 2] [1, 3] (by norm_num) (by norm_num)
    (by norm_num [idEnv, varSample, mean])).1

/-- Claim C7: CUPED's `theta` is `cov(y,x)/var(x)` (both divisor `n-1`) when
`var(x) > 0`, and whenever `x` is constant (`var(x) = 0`) `theta = 0` and the
adjusted series `y - theta*(x - mean(x))` equals `y` element-wise exactly. -/
theorem c7_cuped_theta (y x : List ℚ) (hlen : y.length = x.length) :
    (0 < varSample x → cuped_theta y x = covSample y x / varSample x) ∧
    (varSample x = 0 → cuped_theta y x = 0 ∧ cuped_adjust y x = y) := by
  constructor
  · intro h
    unfold cuped_theta
    rw [if_pos h]
  · intro h
    have hth : cuped_theta y x = 0 := by
      unfold cuped_theta
      rw [if_neg (by rw [h]; exact lt_irrefl 0)]
    exact ⟨hth, cuped_adjust_of_theta_zero y x hlen hth⟩

/-- Claim C7 witness: constant covariate `x = [3, 3]` with `y = [1, 2]`. -/
theorem c7_witness :
    cuped_theta [1, 2] [3, 3] = 0 ∧ cuped_adjust [1, 2] [3, 3] = [1, 2] := by
  have h := (c7_cuped_theta [1, 2] [3, 3] (by norm_num)).2
    (by norm_num [varSample, mean])
  exact h

/-- Claim C8: the variance reduction fraction equals
`1 - var(y_adjusted)/var(y)` when `var(y) > 0` and `0` otherwise, is always at
most 1, and equals 0 whenever `theta = 0`. -/
theorem c8_variance_reduction (y x : List ℚ) (hlen : y.length = x.length) :
    variance_reduction y x =
      (if 0 < varSample y then 1 - varSample (cuped_adjust y x) / varSample y else 0) ∧
    variance_reduction y x ≤ 1 ∧
    (cuped_theta y x = 0 → variance_reduction y x = 0) := by
  refine ⟨rfl, ?_, ?_⟩
  · unfold variance_reduction
    split
    · have hnn : 0 ≤ varSample (cuped_adjust y x) / varSample y :=
        div_nonneg (varSample_nonneg _) (le_of_lt (by assumption))
      linarith
    · norm_num
  · intro hth
    unfold variance_reduction
    rw [cuped_adjust_of_theta_zero y x hlen hth]
    split
    · rw [div_self (ne_of_gt (by assumption))]
      norm_num
    · rfl

/-- Claim C8 witness: `y = [0, 2]`, constant `x = [5, 5]` (so `theta = 0`,
`var(y) = 2 > 0`, and the fraction evaluates to 0). -/
theorem c8_witness : variance_reduction [0, 2] [5, 5] = 0 := by
  exact (c8_variance_reduction [0, 2] [5, 5] (by norm_num)).2.2
    (by norm_num [cuped_theta, varSample, mean])

/-- Claim C10: for `n1, n2 > 0` and `0 ≤ x1 ≤ n1`, `0 ≤ x2 ≤ n2`, the
proportion comparator's arithmetic is fault-free — both square-root arguments
(the unpooled and the pooled standard-error radicands) are nonnegative and all
divisors (`n1`, `n2`, `n1+n2`) are nonzero; and the bound `x ≤ n` is necessary:
at `(x1, n1, x2, n2) = (2, 1, 0, 1)` the unpooled radicand is negative. -/
theorem c10_ztest_arithmetic_safety :
    (∀ x1 n1 x2 n2 : ℕ, 0 < n1 → 0 < n2 → x1 ≤ n1 → x2 ≤ n2 →
      0 ≤ se_ci_arg x1 n1 x2 n2 ∧ 0 ≤ se_pooled_arg x1 n1 x2 n2 ∧
      (n1 : ℚ) ≠ 0 ∧ (n2 : ℚ) ≠ 0 ∧ ((n1 : ℚ) + (n2 : ℚ)) ≠ 0) ∧
    se_ci_arg 2 1 0 1 < 0 := by
  constructor
  · intro x1 n1 x2 n2 hn1 hn2 hx1 hx2
    have hn1q : (0 : ℚ) < (n1 : ℚ) := by exact_mod_cast hn1
    have hn2q : (0 : ℚ) < (n2 : ℚ) := by exact_mod_cast hn2
    have hp1l : (0 : ℚ) ≤ (x1 : ℚ) / n1 := div_nonneg (Nat.cast_nonneg x1) (le_of_lt hn1q)
    have hp2l : (0 : ℚ) ≤ (x2 : ℚ) / n2 := div_nonneg (Nat.cast_nonneg x2) (le_of_lt hn2q)
    have hp1u : (x1 : ℚ) / n1 ≤ 1 := by
      rw [div_le_one hn1q]
      exact_mod_cast hx1
    have hp2u : (x2 : ℚ) / n2 ≤ 1 := by
      rw [div_le_one hn2q]
      exact_mod_cast hx2
    refine ⟨?_, ?_, ne_of_gt hn1q, ne_of_gt hn2q, ne_of_gt (by linarith)⟩
    · unfold se_ci_arg
      have t1 : (0 : ℚ) ≤ ((x1 : ℚ) / n1) * (1 - (x1 : ℚ) / n1) / n1 :=
        div_nonneg (mul_nonneg hp1l (by linarith)) (le_of_lt hn1q)
      have t2 : (0 : ℚ) ≤ ((x2 : ℚ) / n2) * (1 - (x2 : ℚ) / n2) / n2 :=
        div_nonneg (mul_nonneg hp2l (by linarith)) (le_of_lt hn2q)
      linarith
    · unfold se_pooled_arg
      have hsum : (0 : ℚ) < (n1 : ℚ) + n2 := by linarith
      have hpl : (0 : ℚ) ≤ ((x1 : ℚ) + x2) / ((n1 : ℚ) + n2) :=
        div_nonneg (by positivity) (le_of_lt hsum)
      have hpu : ((x1 : ℚ) + x2) / ((n1 : ℚ) + n2) ≤ 1 := by
        rw [div_le_one hsum]
        exact_mod_cast Nat.add_le_add hx1 hx2
      have hinv : (0 : ℚ) ≤ 1 / (n1 : ℚ) + 1 / (n2 : ℚ) := by positivity
      exact mul_nonneg (mul_nonneg hpl (by linarith)) hinv
  · norm_num [se_ci_arg]

/-- Claim C10 witness: the safety statement applied at
`(x1, n1, x2, n2) = (1, 2, 1, 2)`. -/
theorem c10_witness : 0 ≤ se_ci_arg 1 2 1 2 ∧ 0 ≤ se_pooled_arg 1 2 1 2 := by
  have h := c10_ztest_arithmetic_safety.1 1 2 1 2 (by norm_num) (by norm_num)
    (by norm_num) (by norm_num)
  exact ⟨h.1, h.2.1⟩

/-- Claim C2 fails as stated: on a table with no experiment-period rows for the
requested experiment, `run_readout` raises Python's built-in `ValueError`
(ab_readout.py line 122) — the codebase defines no `NoDataError` class. -/
theorem c2_counterexample :
    run_readout idEnv [⟨"other_exp", true, "control", false, false, false, false, 0⟩]
        "exp_checkout_v1" =
      Except.error ⟨"ValueError",
        "No experiment-period sessions found. Check experiment_id or data."⟩ ∧
    "ValueError" ≠ "NoDataError" := by
  constructor
  · simp [run_readout, fetch_sessions]
  · decide

/-- Claim C2 amended: whenever the filtered observation set (experiment-period
rows of the requested experiment) is empty, `run_readout` raises a `ValueError`
(not a `NoDataError` class, which does not exist) with the message shown; the
error propagates to the report caller, which has no handler, and `run_readout`
never returns a table (empty or otherwise) in that case. -/
theorem c2_amended (env : NumEnv) (table : List SessionRow) (eid : String)
    (h : fetch_sessions table eid = []) :
    run_readout env table eid =
      Except.error ⟨"ValueError",
        "No experiment-period sessions found. Check experiment_id or data."⟩ ∧
    (∀ rows, run_readout env table eid ≠ Except.ok rows) ∧
    generate_report_decision env table eid =
      Except.error ⟨"ValueError",
        "No experiment-period sessions found. Check experiment_id or data."⟩ := by
  have hrr : run_readout env table eid =
      Except.error ⟨"ValueError",
        "No experiment-period sessions found. Check experiment_id or data."⟩ := by
    simp [run_readout, h]
  refine ⟨hrr, ?_, ?_⟩
  · intro rows
    rw [hrr]
    simp
  · simp [generate_report_decision, hrr, Except.bind]

/-- Claim C2 witness: the amended statement evaluated on the empty table. -/
theorem c2_witness :
    run_readout idEnv [] "exp_checkout_v1" =
      Except.error ⟨"ValueError",
        "No experiment-period sessions found. Check experiment_id or data."⟩ := by
  exact (c2_amended idEnv [] "exp_checkout_v1" rfl).1

/-- Claim C9: on a non-empty observation set, the readout's chained proportion
metrics use funnel-relative denominators — position 1 of the metric list is
`ctr`, tested on (clicks, impressions) per group; position 2 is `atc_rate`,
tested on (add-to-carts, clicks); position 3 is `purchase_rate_given_atc`,
tested on (purchases, add-to-carts). -/
theorem c9_funnel_denominators (env : NumEnv) (rows : List SessionRow)
    (_hne : rows ≠ []) :
    (run_readout_metrics env rows)[1]? =
      some (mkPropMetric "ctr" (two_proportion_ztest env
        ((rows.filter (fun r => r.variant == "control")).countP (fun r => r.has_click))
        ((rows.filter (fun r => r.variant == "control")).countP (fun r => r.has_impression))
        ((rows.filter (fun r => r.variant == "treatment")).countP (fun r => r.has_click))
        ((rows.filter (fun r => r.variant == "treatment")).countP (fun r => r.has_impression)))) ∧
    (run_readout_metrics env rows)[2]? =
      some (mkPropMetric "atc_rate" (two_proportion_ztest env
        ((rows.filter (fun r => r.variant == "control")).countP (fun r => r.has_add_to_cart))
        ((rows.filter (fun r => r.variant == "control")).countP (fun r => r.has_click))
        ((rows.filter (fun r => r.variant == "treatment")).countP (fun r => r.has_add_to_cart))
        ((rows.filter (fun r => r.variant == "treatment")).countP (fun r => r.has_click)))) ∧
    (run_readout_metrics env rows)[3]? =
      some (mkPropMetric "purchase_rate_given_atc" (two_proportion_ztest env
        ((rows.filter (fun r => r.variant == "control")).countP (fun r => r.has_purchase))
        ((rows.filter (fun r => r.variant == "control")).countP (fun r => r.has_add_to_cart))
        ((rows.filter (fun r => r.variant == "treatment")).countP (fun r => r.has_purchase))
        ((rows.filter (fun r => r.variant == "treatment")).countP (fun r => r.has_add_to_cart)))) := by
  refine ⟨rfl, rfl, rfl⟩

/-- Concrete observation set for the claim C9 witness: three sessions per
variant reaching successively deeper funnel stages. -/
def c9_rows : List SessionRow :=
  [ ⟨"e", true, "control", true, false, false, false, 0⟩,
    ⟨"e", true, "control", true, true, false, false, 0⟩,
    ⟨"e", true, "control", true, true, true, true, 5⟩,
    ⟨"e", true, "treatment", true, false, false, false, 0⟩,
    ⟨"e", true, "treatment", true, true, true, false, 0⟩,
    ⟨"e", true, "treatment", true, true, true, true, 7⟩ ]

/-- Claim C9 witness: on `c9_rows` the ctr entry's control estimate is
`clicks/impressions = 2/3` (3 control sessions, all with impressions, 2 with
clicks — the denominator is the impression count, not the session count). -/
theorem c9_witness :
    ((run_readout_metrics idEnv c9_rows)[1]?).map MetricResult.control = some (2 / 3) := by
  have h := (c9_funnel_denominators idEnv c9_rows (by simp [c9_rows])).1
  rw [h]
  simp only [Option.map_some']
  have hc : (c9_rows.filter (fun r => r.variant == "control")).countP
      (fun r => r.has_click) = 2 := by decide
  have hi : (c9_rows.filter (fun r => r.variant == "control")).countP
      (fun r => r.has_impression) = 3 := by decide
  have ht : (c9_rows.filter (fun r => r.variant == "treatment")).countP
      (fun r => r.has_click) = 2 := by decide
  have hti : (c9_rows.filter (fun r => r.variant == "treatment")).countP
      (fun r => r.has_impression) = 3 := by decide
  rw [hc, hi, ht, hti]
  norm_num [mkPropMetric, two_proportion_ztest]

/-- Observation set exhibiting the formatting defect for claim C1: six
experiment-period sessions of experiment "e", three per variant, with exactly
one treatment purchase (so the raw purchase-rate difference is 1/3). -/
def c1_rows : List SessionRow :=
  [ ⟨"e", true, "control", false, false, false, false, 0⟩,
    ⟨"e", true, "control", false, false, false, false, 0⟩,
    ⟨"e", true, "control", false, false, false, false, 0⟩,
    ⟨"e", true, "treatment", false, false, false, false, 0⟩,
    ⟨"e", true, "treatment", false, false, false, false, 0⟩,
    ⟨"e", true, "treatment", false, false, false, true, 0⟩ ]

/-- Claim C1 evaluated at the failing input `c1_rows`: `run_readout` does NOT
return raw floats — it returns the formatted display table (percent strings),
and the report's decision input `abs_diff_num` is obtained by parsing the
formatted string "33.333%" back, yielding 33333/100000, which differs from the
raw `MetricResult.abs_diff` value 1/3 the claim says the decision logic
consumes. -/
theorem c1_formatting_defect_eval :
    run_readout idEnv c1_rows "e" =
      Except.ok
        [ ⟨"atc_rate", "0.000%", "0.000%", "0.000%", "NA", "0.000%", "0.000%", "1.0000"⟩,
          ⟨"ctr", "0.000%", "0.000%", "0.000%", "NA", "0.000%", "0.000%", "1.0000"⟩,
          ⟨"purchase_rate_given_atc", "0.000%", "0.000%", "0.000%", "NA", "0.000%", "0.000%",
            "1.0000"⟩,
          ⟨"purchase_rate_per_session", "0.000%", "33.333%", "33.333%", "NA", "18.519%",
            "48.148%", "-5.2000"⟩,
          ⟨"revenue_per_session", "0.0000", "0.0000", "0.0000", "NA", "0.0000", "0.0000",
            "1.0000"⟩ ] ∧
    ((run_readout_metrics idEnv (fetch_sessions c1_rows "e"))[0]?).map MetricResult.abs_diff =
      some (1 / 3) ∧
    (run_readout idEnv c1_rows "e").toOption.bind
        (fun rows =>
          (rows.find? (fun r => r.metric == "purchase_rate_per_session")).map
            report_abs_diff_num) =
      some (33333 / 100000) ∧
    (33333 / 100000 : ℚ) ≠ 1 / 3 := by
  have hfetch : fetch_sessions c1_rows "e" = c1_rows := by decide
  have hm : run_readout_metrics idEnv c1_rows =
      [ ⟨"purchase_rate_per_session", 0, 1/3, 1/3, none, 5/27, 13/27, -26/5⟩,
        ⟨"ctr", 0, 0, 0, none, 0, 0, 1⟩,
        ⟨"atc_rate", 0, 0, 0, none, 0, 0, 1⟩,
        ⟨"purchase_rate_given_atc", 0, 0, 0, none, 0, 0, 1⟩,
        ⟨"revenue_per_session", 0, 0, 0, none, 0, 0, 1⟩ ] := by
    simp [run_readout_metrics, mkPropMetric, two_proportion_ztest, two_sample_ttest,
      se_ci_arg, se_pooled_arg, mean, varSample, idEnv, c1_rows, List.filter_cons,
      List.countP_cons, List.countP_nil]
    norm_num [abs_of_nonneg]
  have hp0 : fmt_pct (0 : ℚ) = "0.000%" := by
    norm_num [fmt_pct, fmtFixed, round_eq]
    decide
  have hp13 : fmt_pct (1/3 : ℚ) = "33.333%" := by
    norm_num [fmt_pct, fmtFixed, round_eq]
    decide
  have hp527 : fmt_pct (5/27 : ℚ) = "18.519%" := by
    norm_num [fmt_pct, fmtFixed, round_eq]
    decide
  have hp1327 : fmt_pct (13/27 : ℚ) = "48.148%" := by
    norm_num [fmt_pct, fmtFixed, round_eq]
    decide
  have hn265 : fmt_num (-26/5 : ℚ) = "-5.2000" := by
    norm_num [fmt_num, fmtFixed, round_eq]
    decide
  have hn1 : fmt_num (1 : ℚ) = "1.0000" := by
    norm_num [fmt_num, fmtFixed, round_eq]
    decide
  have hn0 : fmt_num (0 : ℚ) = "0.0000" := by
    norm_num [fmt_num, fmtFixed, round_eq]
    decide
  have hd0 : displayRow ⟨"purchase_rate_per_session", 0, 1/3, 1/3, none, 5/27, 13/27, -26/5⟩ =
      ⟨"purchase_rate_per_session", "0.000%", "33.333%", "33.333%", "NA", "18.519%",
        "48.148%", "-5.2000"⟩ := by
    simp only [displayRow]
    rw [if_pos (by decide)]
    simp only [DisplayRow.mk.injEq]
    exact ⟨trivial, hp0, hp13, hp13, trivial, hp527, hp1327, hn265⟩
  have hdz : ∀ name : String,
      (["purchase_rate_per_session", "ctr", "atc_rate",
        "purchase_rate_given_atc"].contains name) = true →
      displayRow ⟨name, 0, 0, 0, none, 0, 0, 1⟩ =
        ⟨name, "0.000%", "0.000%", "0.000%", "NA", "0.000%", "0.000%", "1.0000"⟩ := by
    intro name hname
    simp only [displayRow]
    rw [if_pos hname]
    simp only [DisplayRow.mk.injEq]
    exact ⟨trivial, hp0, hp0, hp0, trivial, hp0, hp0, hn1⟩
  have hd4 : displayRow ⟨"revenue_per_session", 0, 0, 0, none, 0, 0, 1⟩ =
      ⟨"revenue_per_session", "0.0000", "0.0000", "0.0000", "NA", "0.0000", "0.0000",
        "1.0000"⟩ := by
    simp only [displayRow]
    rw [if_neg (by decide)]
    simp only [DisplayRow.mk.injEq]
    exact ⟨trivial, hn0, hn0, hn0, trivial, hn0, hn0, hn1⟩
  have hrr : run_readout idEnv c1_rows "e" =
      Except.ok
        [ ⟨"atc_rate", "0.000%", "0.000%", "0.000%", "NA", "0.000%", "0.000%", "1.0000"⟩,
          ⟨"ctr", "0.000%", "0.000%", "0.000%", "NA", "0.000%", "0.000%", "1.0000"⟩,
          ⟨"purchase_rate_given_atc", "0.000%", "0.000%", "0.000%", "NA", "0.000%", "0.000%",
            "1.0000"⟩,
          ⟨"purchase_rate_per_session", "0.000%", "33.333%", "33.333%", "NA", "18.519%",
            "48.148%", "-5.2000"⟩,
          ⟨"revenue_per_session", "0.0000", "0.0000", "0.0000", "NA", "0.0000", "0.0000",
            "1.0000"⟩ ] := by
    unfold run_readout
    rw [hfetch]
    rw [if_neg (by decide : ¬c1_rows.isEmpty = true)]
    rw [hm]
    simp only [List.map_cons, List.map_nil]
    rw [hd0, hdz "ctr" (by decide), hdz "atc_rate" (by decide),
      hdz "purchase_rate_given_atc" (by decide), hd4]
    rfl
  have hparse : parse_pct_back "33.333%" = 33333 / 100000 := by
    have hstr : String.mk ("33.333%".data.filter (fun c => c ≠ '%')) = "33.333" := by decide
    have hd1 : digitsVal ['3', '3'] = 33 := by decide
    have hd2 : digitsVal ['3', '3', '3'] = 333 := by decide
    have hpd : parseDec "33.333" = parseDecChars ['3', '3', '.', '3', '3', '3'] := rfl
    have hq : parseDecChars ['3', '3', '.', '3', '3', '3'] =
        (digitsVal (splitAtDot ['3', '3', '.', '3', '3', '3']).1 : ℚ) +
          (digitsVal (splitAtDot ['3', '3', '.', '3', '3', '3']).2 : ℚ) /
            (10 : ℚ) ^ (splitAtDot ['3', '3', '.', '3', '3', '3']).2.length := rfl
    have hsplit2 : splitAtDot ['3', '3', '.', '3', '3', '3'] = (['3', '3'], ['3', '3', '3']) := by
      decide
    unfold parse_pct_back
    rw [hstr, hpd, hq, hsplit2]
    rw [show ((['3', '3'], ['3', '3', '3']).1) = ['3', '3'] from rfl,
      show ((['3', '3'], ['3', '3', '3']).2) = ['3', '3', '3'] from rfl, hd1, hd2]
    norm_num
  refine ⟨hrr, ?_, ?_, by norm_num⟩
  · rw [hfetch, hm]
    norm_num
  · rw [hrr]
    have hfind : List.find? (fun (r : DisplayRow) => r.metric == "purchase_rate_per_session")
        [ ⟨"atc_rate", "0.000%", "0.000%", "0.000%", "NA", "0.000%", "0.000%", "1.0000"⟩,
          ⟨"ctr", "0.000%", "0.000%", "0.000%", "NA", "0.000%", "0.000%", "1.0000"⟩,
          ⟨"purchase_rate_given_atc", "0.000%", "0.000%", "0.000%", "NA", "0.000%", "0.000%",
            "1.0000"⟩,
          ⟨"purchase_rate_per_session", "0.000%", "33.333%", "33.333%", "NA", "18.519%",
            "48.148%", "-5.2000"⟩,
          ⟨"revenue_per_session", "0.0000", "0.0000", "0.0000", "NA", "0.0000", "0.0000",
            "1.0000"⟩ ] =
        some ⟨"purchase_rate_per_session", "0.000%", "33.333%", "33.333%", "NA", "18.519%",
          "48.148%", "-5.2000"⟩ := by decide
    simp only [Except.toOption, Option.bind_some, hfind, Option.map_some']
    unfold report_abs_diff_num
    exact congrArg some hparse

theorem gauss_integrableOn_Ioi :
    MeasureTheory.IntegrableOn
      (fun t : ℝ => Real.exp (-(t ^ 2) / 2) / Real.sqrt (2 * Real.pi)) (Set.Ioi 20) := by
  have h : (fun t : ℝ => Real.exp (-(t ^ 2) / 2) / Real.sqrt (2 * Real.pi)) =
      fun t : ℝ => Real.exp (-(1 / 2) * t ^ 2) / Real.sqrt (2 * Real.pi) := by
    funext t
    rw [show -(t ^ 2) / 2 = -(1 / 2) * t ^ 2 by ring]
  rw [h]
  exact ((integrable_exp_neg_mul_sq (by norm_num : (0 : ℝ) < 1 / 2)).div_const _).integrableOn

theorem expbound_integrableOn_Ioi :
    MeasureTheory.IntegrableOn
      (fun t : ℝ => Real.exp (-180) * Real.exp (-1 * t)) (Set.Ioi 20) := by
  exact (exp_neg_integrableOn_Ioi 20 (by norm_num : (0 : ℝ) < 1)).const_mul _

theorem normal_tail_twenty_le : normal_tail 20 ≤ Real.exp (-200) := by
  have hpt : ∀ t ∈ Set.Ioi (20 : ℝ),
      Real.exp (-(t ^ 2) / 2) / Real.sqrt (2 * Real.pi) ≤
        Real.exp (-180) * Real.exp (-1 * t) := by
    intro t ht
    have ht20 : (20 : ℝ) < t := ht
    have hsq : 1 ≤ Real.sqrt (2 * Real.pi) := by
      have : (1 : ℝ) ≤ 2 * Real.pi := by
        nlinarith [Real.pi_gt_three]
      calc (1 : ℝ) = Real.sqrt 1 := (Real.sqrt_one).symm
        _ ≤ Real.sqrt (2 * Real.pi) := Real.sqrt_le_sqrt this
    have h1 : Real.exp (-(t ^ 2) / 2) / Real.sqrt (2 * Real.pi) ≤ Real.exp (-(t ^ 2) / 2) :=
      div_le_self (le_of_lt (Real.exp_pos _)) hsq
    have h2 : Real.exp (-(t ^ 2) / 2) ≤ Real.exp (-180 + -1 * t) := by
      apply Real.exp_le_exp.mpr
      nlinarith
    rw [Real.exp_add] at h2
    linarith
  have hmono := MeasureTheory.setIntegral_mono_on gauss_integrableOn_Ioi
    expbound_integrableOn_Ioi measurableSet_Ioi hpt
  have hval : (∫ t in Set.Ioi (20 : ℝ), Real.exp (-180) * Real.exp (-1 * t)) =
      Real.exp (-200) := by
    rw [MeasureTheory.integral_mul_left]
    have : (fun t : ℝ => Real.exp (-1 * t)) = fun t : ℝ => Real.exp (-t) := by
      funext t
      ring_nf
    rw [this, integral_exp_neg_Ioi]
    rw [← Real.exp_add]
    norm_num
  unfold normal_tail
  calc (∫ t in Set.Ioi (20 : ℝ), Real.exp (-(t ^ 2) / 2) / Real.sqrt (2 * Real.pi))
      ≤ ∫ t in Set.Ioi (20 : ℝ), Real.exp (-180) * Real.exp (-1 * t) := hmono
    _ = Real.exp (-200) := hval

theorem exp_twohundred_big : (2 : ℝ) * 10 ^ 10 < Real.exp 200 := by
  have h11 : (11 : ℝ) ≤ Real.exp 10 := by
    have := Real.add_one_le_exp (10 : ℝ)
    linarith
  have hpow : (11 : ℝ) ^ 20 ≤ Real.exp 10 ^ 20 :=
    pow_le_pow_left₀ (by norm_num) h11 20
  have hexp : Real.exp 200 = Real.exp 10 ^ 20 := by
    rw [← Real.exp_nat_mul]
    norm_num
  rw [hexp]
  calc (2 : ℝ) * 10 ^ 10 < 11 ^ 20 := by norm_num
    _ ≤ Real.exp 10 ^ 20 := hpow

/-- Claim C5: the SRM checker's chi-square statistic at
`n_control = 6000, n_treatment = 4000, expected_treatment_share = 0.5` equals
400 exactly, and the corresponding 1-degree-of-freedom p-value
`P(chi-square > 400) = 2 P(Z > 20)` is below 1e-10 (bounded here through the
Gaussian tail estimate `P(Z > 20) ≤ exp(-200)`). -/
theorem c5_srm_checker :
    (srm_test 6000 4000 (1 / 2)).chi2 = 400 ∧
    (srm_test 6000 4000 (1 / 2)).p_value < 1 / 10 ^ 10 := by
  have hchi : srm_chi2 6000 4000 (1 / 2) = 400 := by
    norm_num [srm_chi2]
  constructor
  · show srm_chi2 6000 4000 (1 / 2) = 400
    exact hchi
  · show chisq1_sf ((srm_chi2 6000 4000 (1 / 2) : ℚ) : ℝ) < 1 / 10 ^ 10
    rw [hchi]
    have hcast : (((400 : ℚ) : ℝ)) = 400 := by norm_num
    rw [hcast]
    unfold chisq1_sf
    have hsqrt : Real.sqrt 400 = 20 := by
      rw [show (400 : ℝ) = 20 ^ 2 by norm_num, Real.sqrt_sq (by norm_num : (0 : ℝ) ≤ 20)]
    rw [hsqrt]
    have h1 : normal_tail 20 ≤ Real.exp (-200) := normal_tail_twenty_le
    have h2 : Real.exp (-200) < 1 / (2 * 10 ^ 10) := by
      rw [Real.exp_neg, one_div]
      exact (inv_lt_inv₀ (Real.exp_pos 200) (by positivity)).mpr exp_twohundred_big
    calc 2 * normal_tail 20 ≤ 2 * Real.exp (-200) := by linarith
      _ < 2 * (1 / (2 * 10 ^ 10)) := by linarith
      _ = 1 / 10 ^ 10 := by norm_num
